import Mathlib

/-!
Shallow embedding of the fur-rendering pipeline (shell-layer builder,
fin builder, wind simulation and the renderer's parameter setters) of
the `fur-rendering` JavaScript sources, together with theorems settling
the specification's claims about it.

Modelling conventions: JavaScript numbers are modelled as real numbers
(`Math.sin`, `Math.pow`, `Math.sqrt`, `Math.exp` become the exact real
functions), flat attribute arrays (`Float32Array`) become `List ℝ`,
`null`/absent attributes become `Option`, and in-place mutation of an
object becomes a function from the old record to the new record.
Out-of-bounds reads, which the sources never perform on well-formed
meshes, are modelled with `List.getD _ 0`.
-/

namespace Fur

/-- A 3-component vector, modelling `THREE.Vector3`. -/
structure Vec3 where
  x : ℝ
  y : ℝ
  z : ℝ

/-- Model of `a.add b`, modelling `Vector3.add` / `addVectors`. -/
def Vec3.add (a b : Vec3) : Vec3 :=
  ⟨a.x + b.x, a.y + b.y, a.z + b.z⟩

/-- Model of `a.sub b`, modelling `Vector3.sub` / `subVectors`. -/
def Vec3.sub (a b : Vec3) : Vec3 :=
  ⟨a.x - b.x, a.y - b.y, a.z - b.z⟩

/-- Model of `a.smul s`, modelling `Vector3.multiplyScalar`. -/
def Vec3.smul (a : Vec3) (s : ℝ) : Vec3 :=
  ⟨a.x * s, a.y * s, a.z * s⟩

/-- Model of `a.cross b`, modelling `Vector3.cross`. -/
def Vec3.cross (a b : Vec3) : Vec3 :=
  ⟨a.y * b.z - a.z * b.y, a.z * b.x - a.x * b.z, a.x * b.y - a.y * b.x⟩

/-- The zero vector, modelling `Vector3.set(0, 0, 0)`. -/
def Vec3.zero : Vec3 := ⟨0, 0, 0⟩

/-- Per-shell-layer metadata stored in `geometry.userData` by
`ShellGeometry.createShellLayer`. -/
structure ShellUserData where
  shellLayer : ℕ
  shellCount : ℕ
  offsetDistance : ℝ
  normalizedLayer : ℝ

/-- Per-fin metadata stored in `geometry.userData` by
`FinGeometry.createFinFromEdge`. -/
structure FinUserData where
  finNormal : Vec3
  tapered : Bool
  taperingScale : ℝ

/-- Model of `THREE.BufferGeometry` as used by the fur pipeline: flat
attribute arrays, an optional triangle index, and the custom
`randomizedNormal` attribute and `userData` the builders add. -/
structure BufferGeometry where
  uuid : ℕ := 0
  positions : Option (List ℝ) := none
  normals : Option (List ℝ) := none
  uvs : Option (List ℝ) := none
  index : Option (List ℕ) := none
  randomizedNormal : Option (List ℝ) := none
  shellData : Option ShellUserData := none
  finData : Option FinUserData := none

/-- An edge record `{ v0, v1 }` of vertex indices, as produced by
`FinGeometry.extractEdges`. -/
structure Edge where
  v0 : ℕ
  v1 : ℕ
deriving DecidableEq

/-- The canonical edge key (smaller index first), modelling the template
string `` `${v0}-${v1}` `` with the smaller index put first; on vertex
indices the string is uniquely parsable, so a pair of naturals is a
faithful model of it. -/
def edgeKey (e : Edge) : ℕ × ℕ :=
  if e.v0 < e.v1 then (e.v0, e.v1) else (e.v1, e.v0)

/-- Deduplication loop of `FinGeometry.filterUniqueEdges`: walk the edge
list, keeping an edge only if its canonical key was not seen before
(`edgeMap` is modelled by the list of seen keys). -/
def dedupEdges : List Edge → List (ℕ × ℕ) → List Edge
  | [], _ => []
  | e :: rest, seen =>
    if edgeKey e ∈ seen then dedupEdges rest seen
    else e :: dedupEdges rest (edgeKey e :: seen)

/-- Model of `Array.prototype.filter((_, index) => p index)`: keep the
elements whose running index (starting at `i`) satisfies `p`. -/
def filterWithIndex (p : ℕ → Bool) : List α → ℕ → List α
  | [], _ => []
  | a :: rest, i =>
    if p i then a :: filterWithIndex p rest (i + 1)
    else filterWithIndex p rest (i + 1)

end Fur

namespace Fur

/-- State of a `FinGeometry` instance (constructor defaults from the
source). -/
structure FinGeometry where
  finMeshes : List BufferGeometry := []
  finLength : ℝ := 0.1
  finWidth : ℝ := 0.02
  edgeThreshold : ℝ := 0.5
  maxFinCount : ℕ := 2500
  taperingEnabled : Bool := true
  taperingIntensity : ℝ := 0.7
  taperingCurve : String := "quadratic"
  taperingMethod : String := "hybrid"

/-- Model of `FinGeometry.filterUniqueEdges`: deduplicate by canonical key, then,
if more than `maxFinCount` unique edges remain, keep every
`step = floor(count / maxFinCount)`-th edge (by running index). -/
def FinGeometry.filterUniqueEdges (f : FinGeometry) (edges : List Edge) : List Edge :=
  let uniqueEdges := dedupEdges edges []
  if uniqueEdges.length > f.maxFinCount then
    let step := uniqueEdges.length / f.maxFinCount
    filterWithIndex (fun index => index % step == 0) uniqueEdges 0
  else
    uniqueEdges

/-- The raw (pre-dedup) edge enumeration of `FinGeometry.extractEdges`:
three edges per triangle.  Non-indexed geometry: triangle `t` uses
vertices `3t, 3t+1, 3t+2` (the loop steps `i` by 9 over the flat
position array and sets `v0 = i/3`).  Indexed geometry: vertex indices
are read from the index array (the loop steps by 3 over it). -/
def rawEdges (g : BufferGeometry) : List Edge :=
  match g.index with
  | none =>
    let len := (g.positions.getD []).length
    (List.range ((len + 8) / 9)).flatMap fun t =>
      let v0 := 3 * t
      let v1 := v0 + 1
      let v2 := v0 + 2
      [⟨v0, v1⟩, ⟨v1, v2⟩, ⟨v2, v0⟩]
  | some idx =>
    (List.range ((idx.length + 2) / 3)).flatMap fun t =>
      let v0 := idx.getD (3 * t) 0
      let v1 := idx.getD (3 * t + 1) 0
      let v2 := idx.getD (3 * t + 2) 0
      [⟨v0, v1⟩, ⟨v1, v2⟩, ⟨v2, v0⟩]

/-- Model of `FinGeometry.extractEdges`: enumerate all triangle edges, then
filter them through `filterUniqueEdges`. -/
def FinGeometry.extractEdges (f : FinGeometry) (g : BufferGeometry) : List Edge :=
  f.filterUniqueEdges (rawEdges g)

/-- Model of `FinGeometry.clearFins`: dispose all fin meshes and empty the list
(disposal frees GPU buffers and has no further observable effect in the
model). -/
def FinGeometry.clearFins (f : FinGeometry) : FinGeometry :=
  { f with finMeshes := [] }

/-- Model of `FinGeometry.setMaxFinCount`: `Math.max(200, Math.min(2000, Math.floor(count)))`. -/
noncomputable def FinGeometry.setMaxFinCount (f : FinGeometry) (count : ℝ) : FinGeometry :=
  { f with maxFinCount := (max 200 (min 2000 ⌊count⌋)).toNat }

/-- Model of `FinGeometry.setFinLength`: `Math.max(0, length)`. -/
noncomputable def FinGeometry.setFinLength (f : FinGeometry) (length : ℝ) : FinGeometry :=
  { f with finLength := max 0 length }

open Classical in
/-- Model of `FinGeometry.calculateTaperingScale`: 1.0 when tapering is disabled
or the intensity is exactly 0; otherwise `1 - curveFactor * intensity`
with `curveFactor` selected by the curve string (`linear` ↦ `p`,
`quadratic` ↦ `p²`, `exponential` ↦ `p^2.5`, anything else defaulting
to quadratic). -/
noncomputable def FinGeometry.calculateTaperingScale (f : FinGeometry)
    (normalizedPosition : ℝ) : ℝ :=
  if ¬ f.taperingEnabled ∨ f.taperingIntensity = 0 then 1
  else
    let curveFactor : ℝ :=
      if f.taperingCurve = "linear" then normalizedPosition
      else if f.taperingCurve = "quadratic" then normalizedPosition * normalizedPosition
      else if f.taperingCurve = "exponential" then normalizedPosition ^ (2.5 : ℝ)
      else normalizedPosition * normalizedPosition
    let taperingAmount := curveFactor * f.taperingIntensity
    1 - taperingAmount

/-- Model of `Vector3.length`. -/
noncomputable def Vec3.norm (a : Vec3) : ℝ :=
  Real.sqrt (a.x * a.x + a.y * a.y + a.z * a.z)

open Classical in
/-- Model of `Vector3.normalize`: divide by `length() || 1` (a zero-length vector
is left unchanged). -/
noncomputable def Vec3.normalize (a : Vec3) : Vec3 :=
  if a.norm = 0 then a else ⟨a.x / a.norm, a.y / a.norm, a.z / a.norm⟩

/-- Read vertex `v` of a flat 3-component attribute array
(`arr[v*3], arr[v*3+1], arr[v*3+2]`). -/
def readVec3 (arr : List ℝ) (v : ℕ) : Vec3 :=
  ⟨arr.getD (3 * v) 0, arr.getD (3 * v + 1) 0, arr.getD (3 * v + 2) 0⟩

open Classical in
/-- Model of `FinGeometry.createFinFromEdge`: build the 6-vertex tapered quad for
one edge — base vertices at the edge endpoints, tip vertices offset from
the edge midpoint along the averaged (normalized) endpoint normals by
`finLength`, narrowed by the tip tapering scale when tapering is active;
flat face normal `(p1 - p0) × avgNormal`, fixed UVs. -/
noncomputable def FinGeometry.createFinFromEdge (f : FinGeometry) (e : Edge)
    (positions normals : List ℝ) : BufferGeometry :=
  let p0 := readVec3 positions e.v0
  let p1 := readVec3 positions e.v1
  let n0 := (readVec3 normals e.v0).normalize
  let n1 := (readVec3 normals e.v1).normalize
  let avgNormal := (n0.add n1).normalize
  let base0 := p0
  let base1 := p1
  let topScale := f.calculateTaperingScale 1
  let edgeVector := p1.sub p0
  let edgeMidpoint := (p0.add p1).smul 0.5
  let topMidpoint := edgeMidpoint.add (avgNormal.smul f.finLength)
  let tops :=
    if f.taperingEnabled ∧ topScale < 1 then
      let scaledEdgeVector := edgeVector.smul (topScale * 0.5)
      (topMidpoint.sub scaledEdgeVector, topMidpoint.add scaledEdgeVector)
    else
      (p0.add (avgNormal.smul f.finLength), p1.add (avgNormal.smul f.finLength))
  let top0 := tops.1
  let top1 := tops.2
  let vertices : List ℝ :=
    [base0.x, base0.y, base0.z, base1.x, base1.y, base1.z, top0.x, top0.y, top0.z,
     base1.x, base1.y, base1.z, top1.x, top1.y, top1.z, top0.x, top0.y, top0.z]
  let finNormal := ((p1.sub p0).cross avgNormal).normalize
  let finNormals : List ℝ :=
    [finNormal.x, finNormal.y, finNormal.z, finNormal.x, finNormal.y, finNormal.z,
     finNormal.x, finNormal.y, finNormal.z, finNormal.x, finNormal.y, finNormal.z,
     finNormal.x, finNormal.y, finNormal.z, finNormal.x, finNormal.y, finNormal.z]
  let uvs : List ℝ := [0, 0, 1, 0, 0.25, 1, 1, 0, 0.75, 1, 0.25, 1]
  { uuid := 0
    positions := some vertices
    normals := some finNormals
    uvs := some uvs
    index := none
    randomizedNormal := none
    shellData := none
    finData := some ⟨finNormal, f.taperingEnabled, topScale⟩ }

/-- Model of `FinGeometry.generateFins`: clear the previous fins, bail out on a
missing mesh, otherwise extract the edges and build one fin geometry per
retained edge.  (`createFinFromEdge` never returns `null`, so the
source's `if (finGeometry)` push-guard always passes and the loop is a
map.)  Returns the updated instance state and the fin list. -/
noncomputable def FinGeometry.generateFins (f : FinGeometry)
    (baseMesh : Option BufferGeometry) : FinGeometry × List BufferGeometry :=
  let f := f.clearFins
  match baseMesh with
  | none => (f, [])
  | some geometry =>
    let positions := geometry.positions.getD []
    let normals := geometry.normals.getD []
    let edges := f.extractEdges geometry
    (f, edges.map fun e => f.createFinFromEdge e positions normals)

/-- The pool key of `ShellGeometry.generatePoolKey`.  The source
concatenates these fields into a single string separated by `_`; the
structured tuple is a faithful model of that key (the fields determine
the string and, for the values that actually occur, conversely). -/
structure PoolKey where
  geometryId : ℕ
  vertexCount : ℕ
  shellCount : ℕ
  shellSpacing : ℝ
  maxShellDistance : ℝ
  taperingEnabled : Bool
  taperingIntensity : ℝ
  taperingCurve : String
  taperingMethod : String
  isolationFlag : String

/-- State of a `ShellGeometry` instance (constructor defaults from the
source).  The performance counters and log strings of the source are
omitted: no claim observes them. -/
structure ShellGeometry where
  shellCount : ℕ := 16
  shellSpacing : ℝ := 0.02
  maxShellDistance : ℝ := 0.3
  taperingEnabled : Bool := true
  taperingIntensity : ℝ := 0.7
  taperingCurve : String := "quadratic"
  taperingMethod : String := "hybrid"
  shellGeometries : List BufferGeometry := []
  baseGeometry : Option BufferGeometry := none
  geometryPool : List (PoolKey × List BufferGeometry) := []
  maxPoolSize : ℕ := 64

/-- Model of `ShellGeometry.clearShells`: dispose every generated shell geometry
and empty the list. -/
def ShellGeometry.clearShells (st : ShellGeometry) : ShellGeometry :=
  { st with shellGeometries := [] }

/-- Model of `ShellGeometry.getShellGeometries`. -/
def ShellGeometry.getShellGeometries (st : ShellGeometry) : List BufferGeometry :=
  st.shellGeometries

/-- Model of `ShellGeometry.setShellCount`:
`Math.max(8, Math.min(32, Math.floor(count)))`, then `clearShells()`. -/
noncomputable def ShellGeometry.setShellCount (st : ShellGeometry) (count : ℝ) : ShellGeometry :=
  ({ st with shellCount := (max 8 (min 32 ⌊count⌋)).toNat }).clearShells

/-- Model of `ShellGeometry.setShellSpacing`: `Math.max(0.001, spacing)`, then
`clearShells()`. -/
noncomputable def ShellGeometry.setShellSpacing (st : ShellGeometry) (spacing : ℝ) : ShellGeometry :=
  ({ st with shellSpacing := max 0.001 spacing }).clearShells

/-- Model of `ShellGeometry.setMaxShellDistance`: `Math.max(0.01, distance)`,
then `clearShells()`. -/
noncomputable def ShellGeometry.setMaxShellDistance (st : ShellGeometry) (distance : ℝ) : ShellGeometry :=
  ({ st with maxShellDistance := max 0.01 distance }).clearShells

/-- Model of `ShellGeometry.setTaperingEnabled`: store the flag, then
`clearShells()`. -/
def ShellGeometry.setTaperingEnabled (st : ShellGeometry) (enabled : Bool) : ShellGeometry :=
  ({ st with taperingEnabled := enabled }).clearShells

/-- Model of `ShellGeometry.setTaperingIntensity`:
`Math.max(0.0, Math.min(1.0, intensity))`, then `clearShells()`. -/
noncomputable def ShellGeometry.setTaperingIntensity (st : ShellGeometry) (intensity : ℝ) : ShellGeometry :=
  ({ st with taperingIntensity := max 0 (min 1 intensity) }).clearShells

/-- The valid tapering curve names. -/
def validCurves : List String := ["linear", "quadratic", "exponential"]

/-- The valid tapering method names. -/
def validMethods : List String := ["centroid", "normal", "hybrid"]

/-- Model of `ShellGeometry.setTaperingCurve`: store the curve and clear the
shells only when the string is one of the valid curve names; an invalid
name leaves the state untouched. -/
def ShellGeometry.setTaperingCurve (st : ShellGeometry) (curve : String) : ShellGeometry :=
  if curve ∈ validCurves then ({ st with taperingCurve := curve }).clearShells
  else st

/-- Model of `ShellGeometry.setTaperingMethod`: store the method and clear the
shells only when the string is one of the valid method names. -/
def ShellGeometry.setTaperingMethod (st : ShellGeometry) (method : String) : ShellGeometry :=
  if method ∈ validMethods then ({ st with taperingMethod := method }).clearShells
  else st

open Classical in
/-- Model of `ShellGeometry.calculateTaperingScale` — same formula as
`FinGeometry.calculateTaperingScale`, reading the shell instance's
tapering fields. -/
noncomputable def ShellGeometry.calculateTaperingScale (st : ShellGeometry)
    (normalizedLayer : ℝ) : ℝ :=
  if ¬ st.taperingEnabled ∨ st.taperingIntensity = 0 then 1
  else
    let curveFactor : ℝ :=
      if st.taperingCurve = "linear" then normalizedLayer
      else if st.taperingCurve = "quadratic" then normalizedLayer * normalizedLayer
      else if st.taperingCurve = "exponential" then normalizedLayer ^ (2.5 : ℝ)
      else normalizedLayer * normalizedLayer
    let taperingAmount := curveFactor * st.taperingIntensity
    1 - taperingAmount

/-- The shell offset distance computed in `ShellGeometry.createShellLayer`:
`normalizedLayer^1.2 * maxShellDistance` with
`normalizedLayer = layerIndex / totalShells` (the linear-spacing option
computed first in the source is immediately overwritten by this
non-linear one). -/
noncomputable def shellOffsetDistance (layerIndex totalShells : ℕ) (maxShellDistance : ℝ) : ℝ :=
  ((layerIndex : ℝ) / (totalShells : ℝ)) ^ ((1.2 : ℝ)) * maxShellDistance

/-- Copy the 3 components of source vertex `srcIndex` from a flat
3-component attribute array (the three `newX[dst*3+c] = baseX[src*3+c]`
assignments of `createIndependentGeometry`). -/
def copy3 (arr : List ℝ) (srcIndex : ℕ) : List ℝ :=
  [arr.getD (srcIndex * 3) 0, arr.getD (srcIndex * 3 + 1) 0, arr.getD (srcIndex * 3 + 2) 0]

/-- Copy the 2 components of source vertex `srcIndex` from a flat
2-component (UV) attribute array. -/
def copy2 (arr : List ℝ) (srcIndex : ℕ) : List ℝ :=
  [arr.getD (srcIndex * 2) 0, arr.getD (srcIndex * 2 + 1) 0]

/-- The triangle-soup copy of a flat 3-component attribute of an indexed
geometry: for each of the `indexArray.length / 3` faces, emit the 3
referenced source vertices in face order. -/
def soup3 (indexArray : List ℕ) (arr : List ℝ) : List ℝ :=
  (List.range (indexArray.length / 3)).flatMap fun faceIndex =>
    (List.range 3).flatMap fun v =>
      copy3 arr (indexArray.getD (faceIndex * 3 + v) 0)

/-- The triangle-soup copy of a flat 2-component (UV) attribute of an
indexed geometry. -/
def soup2 (indexArray : List ℕ) (arr : List ℝ) : List ℝ :=
  (List.range (indexArray.length / 3)).flatMap fun faceIndex =>
    (List.range 3).flatMap fun v =>
      copy2 arr (indexArray.getD (faceIndex * 3 + v) 0)

/-- Model of `ShellGeometry.createIndependentGeometry`: make a triangle-soup copy
of the base geometry.  Indexed input: emit 3 fresh vertices per face,
copying position/normal/uv from the indexed source vertices.
Non-indexed input: copy the attribute arrays as they are.  Returns
`none` when position or normal attributes are missing. -/
def createIndependentGeometry (base : BufferGeometry) : Option BufferGeometry :=
  match base.positions, base.normals with
  | some basePositions, some baseNormals =>
    match base.index with
    | some indexArray =>
      some { uuid := 0, positions := some (soup3 indexArray basePositions),
             normals := some (soup3 indexArray baseNormals),
             uvs := base.uvs.map (soup2 indexArray), index := none,
             randomizedNormal := none, shellData := none, finData := none }
    | none =>
      some { uuid := 0, positions := some basePositions, normals := some baseNormals,
             uvs := base.uvs, index := none, randomizedNormal := none,
             shellData := none, finData := none }
  | _, _ => none

/-- Model of `ShellGeometry.fract`: `value - Math.floor(value)`. -/
noncomputable def fract (value : ℝ) : ℝ :=
  value - ⌊value⌋

open Classical in
/-- Model of `ShellGeometry.addRandomizedNormals`: per face, seed a pseudo-random
offset from the face centroid, add it to each of the face's normals and
renormalize, storing the result as the extra `randomizedNormal`
attribute (the lighting normals are untouched). -/
noncomputable def addRandomizedNormals (g : BufferGeometry) (layerIndex totalShells : ℕ) :
    BufferGeometry :=
  match g.positions, g.normals with
  | some positionArray, some normalArray =>
    let vertexCount := positionArray.length / 3
    let faceCount := vertexCount / 3
    let body := (List.range faceCount).flatMap fun faceIndex =>
      let b := faceIndex * 9
      let centroidX := (positionArray.getD b 0 + positionArray.getD (b + 3) 0 +
        positionArray.getD (b + 6) 0) / 3
      let centroidY := (positionArray.getD (b + 1) 0 + positionArray.getD (b + 4) 0 +
        positionArray.getD (b + 7) 0) / 3
      let centroidZ := (positionArray.getD (b + 2) 0 + positionArray.getD (b + 5) 0 +
        positionArray.getD (b + 8) 0) / 3
      let seed := centroidX * 12.9898 + centroidY * 78.233 + centroidZ * 37.719
      let random1 := fract (Real.sin seed * 43758.5453)
      let random2 := fract (Real.sin (seed * 1.1) * 43758.5453)
      let random3 := fract (Real.sin (seed * 1.3) * 43758.5453)
      let randomOffsetX := (random1 * 2 - 1) * 0.3
      let randomOffsetY := (random2 * 2 - 1) * 0.3
      let randomOffsetZ := (random3 * 2 - 1) * 0.3
      (List.range 3).flatMap fun v =>
        let vIndex := b + v * 3
        let rx := normalArray.getD vIndex 0 + randomOffsetX
        let ry := normalArray.getD (vIndex + 1) 0 + randomOffsetY
        let rz := normalArray.getD (vIndex + 2) 0 + randomOffsetZ
        let length := Real.sqrt (rx * rx + ry * ry + rz * rz)
        if length > 0 then [rx / length, ry / length, rz / length] else [rx, ry, rz]
    let randomizedNormals := body ++ List.replicate (normalArray.length - faceCount * 9) 0
    { g with randomizedNormal := some randomizedNormals }
  | _, _ => g

open Classical in
/-- Model of `ShellGeometry.processIndependentFace` (as a pure function): read
the 9 position and 9 normal floats of face `faceIndex`, displace every
vertex along its normal by `offsetDistance`, then, when tapering is
enabled and the scale is below 1, pull each vertex toward the face
centroid (computed after the displacement) by the tapering scale
(`applyGeometricIsolationTapering`).  Returns the face's 9 new position
floats. -/
noncomputable def processIndependentFace (taperingEnabled : Bool)
    (positionArray normalArray : List ℝ) (faceIndex : ℕ)
    (offsetDistance taperingScale : ℝ) : List ℝ :=
  let b := faceIndex * 9
  let vert := fun (v : ℕ) =>
    let vIndex := b + v * 3
    (⟨positionArray.getD vIndex 0, positionArray.getD (vIndex + 1) 0,
      positionArray.getD (vIndex + 2) 0⟩ : Vec3)
  let norm := fun (v : ℕ) =>
    let vIndex := b + v * 3
    (⟨normalArray.getD vIndex 0, normalArray.getD (vIndex + 1) 0,
      normalArray.getD (vIndex + 2) 0⟩ : Vec3)
  let displaced := fun (v : ℕ) => (vert v).add ((norm v).smul offsetDistance)
  let final := fun (v : ℕ) =>
    if taperingEnabled ∧ taperingScale < 1 then
      let centroid : Vec3 :=
        ⟨((displaced 0).x + (displaced 1).x + (displaced 2).x) / 3,
         ((displaced 0).y + (displaced 1).y + (displaced 2).y) / 3,
         ((displaced 0).z + (displaced 1).z + (displaced 2).z) / 3⟩
      if taperingScale ≥ 1 then displaced v
      else centroid.add (((displaced v).sub centroid).smul taperingScale)
    else displaced v
  [(final 0).x, (final 0).y, (final 0).z, (final 1).x, (final 1).y, (final 1).z,
   (final 2).x, (final 2).y, (final 2).z]

/-- Model of `ShellGeometry.processVerticesWithGeometricIsolation`: recompute the
position array face by face through `processIndependentFace` (a trailing
fragment shorter than a face, which cannot occur on well-formed
triangle soup, is left unchanged like the source loop leaves it). -/
noncomputable def processVerticesWithGeometricIsolation (st : ShellGeometry)
    (g : BufferGeometry) (offsetDistance : ℝ) (layerIndex totalShells : ℕ) :
    BufferGeometry :=
  match g.positions, g.normals with
  | some positionArray, some normalArray =>
    let normalizedLayer : ℝ := (layerIndex : ℝ) / (totalShells : ℝ)
    let taperingScale := st.calculateTaperingScale normalizedLayer
    let vertexCount := positionArray.length / 3
    let faceCount := vertexCount / 3
    let processed := (List.range faceCount).flatMap fun faceIndex =>
      processIndependentFace st.taperingEnabled positionArray normalArray faceIndex
        offsetDistance taperingScale
    { g with positions := some (processed ++ positionArray.drop (faceCount * 9)) }
  | _, _ => g

/-- Model of `ShellGeometry.createShellLayer`: offset distance from the
non-linear layer curve, an independent triangle-soup copy, randomized
normals, displacement-and-tapering processing, and the layer metadata in
`userData`. -/
noncomputable def ShellGeometry.createShellLayer (st : ShellGeometry)
    (layerIndex : ℕ) (totalShells : ℕ) : Option BufferGeometry :=
  match st.baseGeometry with
  | none => none
  | some base =>
    let normalizedLayer : ℝ := (layerIndex : ℝ) / (totalShells : ℝ)
    let offsetDistance := shellOffsetDistance layerIndex totalShells st.maxShellDistance
    match createIndependentGeometry base with
    | none => none
    | some g0 =>
      let g1 := addRandomizedNormals g0 layerIndex totalShells
      let g2 := processVerticesWithGeometricIsolation st g1 offsetDistance layerIndex totalShells
      some { g2 with shellData := some ⟨layerIndex, totalShells, offsetDistance, normalizedLayer⟩ }

/-- Model of `ShellGeometry.generatePoolKey`. -/
def ShellGeometry.generatePoolKey (st : ShellGeometry) (geometry : BufferGeometry)
    (shellCount : ℕ) : PoolKey :=
  { geometryId := geometry.uuid
    vertexCount := (geometry.positions.getD []).length / 3
    shellCount := shellCount
    shellSpacing := st.shellSpacing
    maxShellDistance := st.maxShellDistance
    taperingEnabled := st.taperingEnabled
    taperingIntensity := st.taperingIntensity
    taperingCurve := st.taperingCurve
    taperingMethod := st.taperingMethod
    isolationFlag := "isolated" }

open Classical in
/-- Lookup in the geometry pool (`Map.has`/`Map.get` on the string key). -/
noncomputable def poolLookup (pool : List (PoolKey × List BufferGeometry)) (key : PoolKey) :
    Option (List BufferGeometry) :=
  (pool.find? fun kv => decide (kv.1 = key)).map Prod.snd

/-- Model of `ShellGeometry.addToGeometryPool`: when the pool is full, dispose
and drop the oldest entry; then store clones of the geometries under the
key (insertion order is preserved, new entries go last). -/
def ShellGeometry.addToGeometryPool (st : ShellGeometry) (key : PoolKey)
    (geometries : List BufferGeometry) : ShellGeometry :=
  let pool := if st.geometryPool.length ≥ st.maxPoolSize
    then st.geometryPool.drop 1 else st.geometryPool
  { st with geometryPool := pool ++ [(key, geometries)] }

/-- Model of `ShellGeometry.generateShells`: clear the old shells, remember the
base geometry, return the pooled layers on a pool hit, otherwise build
layers 1..shellCount through `createShellLayer` (pushing only non-null
results), cache them in the pool and return them.  The
`computeVertexNormals` fallback for meshes without normals lives in
three.js, outside this repository; a mesh without normals reaches
`createIndependentGeometry` only in that (unmodelled) case, which the
theorems below exclude by hypothesis. -/
noncomputable def ShellGeometry.generateShells (st : ShellGeometry)
    (baseMesh : Option BufferGeometry) : ShellGeometry × List BufferGeometry :=
  match baseMesh with
  | none => (st, [])
  | some geometry =>
    let st := st.clearShells
    let st := { st with baseGeometry := some geometry }
    let effectiveShellCount := st.shellCount
    let poolKey := st.generatePoolKey geometry effectiveShellCount
    match poolLookup st.geometryPool poolKey with
    | some pooled => ({ st with shellGeometries := pooled }, pooled)
    | none =>
      let layers := (List.range effectiveShellCount).filterMap fun k =>
        st.createShellLayer (k + 1) effectiveShellCount
      let st := { st with shellGeometries := layers }
      let st := st.addToGeometryPool poolKey layers
      (st, layers)

/-- State of a `WindSimulation` instance.  Constructor defaults from the
source; `noiseOffset` is chosen by `Math.random() * 1000` at
construction, so the constructor model takes it as a parameter.  The
`performance.now()`-based statistics fields are omitted: they depend on
the wall clock, are written nowhere else and read by no claim. -/
structure WindSimulation where
  windDirection : Vec3 := ⟨0.3, 0.4, 0.7⟩
  windStrength : ℝ := 1
  turbulenceIntensity : ℝ := 0.4
  turbulenceFrequency : ℝ := 2
  gustStrength : ℝ := 0.5
  gustFrequency : ℝ := 0.7
  gustDuration : ℝ := 2
  windDampening : ℝ := 0.7
  windResponsiveness : ℝ := 1
  windRandomnessIntensity : ℝ := 0.3
  animationSpeed : ℝ := 1
  windEnabled : Bool := true
  time : ℝ := 0
  cachedWindForce : Vec3 := Vec3.zero
  cachedTurbulence : Vec3 := Vec3.zero
  cachedGustForce : Vec3 := Vec3.zero
  finalWindVector : Vec3 := Vec3.zero
  deltaTime : ℝ := 0
  noiseOffset : Vec3 := Vec3.zero

/-- The `WindSimulation` constructor: all defaults, with the three
`Math.random() * 1000` noise offsets supplied from outside. -/
def WindSimulation.init (noise : Vec3) : WindSimulation :=
  { noiseOffset := noise }

/-- Model of `WindSimulation.calculateBaseWindForce`:
`cachedWindForce = windDirection * windStrength`. -/
def WindSimulation.calculateBaseWindForce (w : WindSimulation) : WindSimulation :=
  { w with cachedWindForce := w.windDirection.smul w.windStrength }

/-- Model of `WindSimulation.calculateTurbulenceOctave`: one sine/cosine product
noise octave per axis, phase-shifted by the per-axis noise offsets. -/
noncomputable def WindSimulation.calculateTurbulenceOctave (w : WindSimulation)
    (time frequency amplitude : ℝ) : Vec3 :=
  let t := time * frequency
  ⟨Real.sin (t + w.noiseOffset.x) * Real.cos (t * 1.3 + w.noiseOffset.x * 0.7) * amplitude,
   Real.sin (t * 1.1 + w.noiseOffset.y) * Real.cos (t * 0.9 + w.noiseOffset.y * 0.8) * amplitude,
   Real.sin (t * 0.8 + w.noiseOffset.z) * Real.cos (t * 1.2 + w.noiseOffset.z * 0.6) * amplitude⟩

open Classical in
/-- Model of `WindSimulation.calculateTurbulence`: zero when the intensity is not
positive, otherwise the three-octave high-quality noise sum scaled by
the turbulence intensity. -/
noncomputable def WindSimulation.calculateTurbulence (w : WindSimulation) : WindSimulation :=
  if w.turbulenceIntensity ≤ 0 then { w with cachedTurbulence := Vec3.zero }
  else
    let turbTime := w.time * w.turbulenceFrequency
    let octave1 := w.calculateTurbulenceOctave turbTime 1 1
    let octave2 := w.calculateTurbulenceOctave turbTime 2 0.5
    let octave3 := w.calculateTurbulenceOctave turbTime 4 0.25
    { w with cachedTurbulence := ((octave1.add octave2).add octave3).smul w.turbulenceIntensity }

open Classical in
/-- Model of `WindSimulation.calculateGusts`: zero when the gust strength is not
positive, otherwise the envelope
`(0.5 + 0.5 sin(t·gustFrequency))² · exp(-|sin(t·gustFrequency·gustDuration)|·2)`
applied to the normalized, slightly perturbed wind direction, scaled by
the gust strength. -/
noncomputable def WindSimulation.calculateGusts (w : WindSimulation) : WindSimulation :=
  if w.gustStrength ≤ 0 then { w with cachedGustForce := Vec3.zero }
  else
    let gustTime := w.time * w.gustFrequency
    let gustCycle := Real.sin gustTime * 0.5 + 0.5
    let gustEnvelope := gustCycle ^ ((2 : ℝ)) *
      Real.exp (-|Real.sin (gustTime * w.gustDuration)| * 2)
    let gustDirection := w.windDirection.normalize
    let gustVariation : Vec3 :=
      ⟨Real.sin (gustTime * 2.1) * 0.3, Real.sin (gustTime * 1.7) * 0.2,
       Real.sin (gustTime * 2.3) * 0.3⟩
    let gustDirection := ((gustDirection.add gustVariation).normalize).smul
      (gustEnvelope * w.gustStrength)
    { w with cachedGustForce := gustDirection }

open Classical in
/-- Model of `WindSimulation.combineFinalWindVector`: sum the three cached force
terms, apply the dampening factor, and, when the responsiveness is not
exactly 1, scale by `min(deltaTime · responsiveness · 10, 1)`. -/
noncomputable def WindSimulation.combineFinalWindVector (w : WindSimulation) : WindSimulation :=
  let v := ((w.cachedWindForce.add w.cachedTurbulence).add w.cachedGustForce).smul
    w.windDampening
  let v := if w.windResponsiveness ≠ 1 then
      v.smul (min (w.deltaTime * w.windResponsiveness * 10) 1)
    else v
  { w with finalWindVector := v }

/-- Model of `WindSimulation.calculateWindForces`: base force, turbulence, gusts,
then the final combination. -/
noncomputable def WindSimulation.calculateWindForces (w : WindSimulation) : WindSimulation :=
  w.calculateBaseWindForce.calculateTurbulence.calculateGusts.combineFinalWindVector

/-- Model of `WindSimulation.update(deltaTime)`: when wind is disabled, zero the
output force and return; otherwise record the delta time, advance the
internal time by `deltaTime * animationSpeed` and recompute all wind
forces. -/
noncomputable def WindSimulation.update (w : WindSimulation) (deltaTime : ℝ) : WindSimulation :=
  if w.windEnabled = false then { w with finalWindVector := Vec3.zero }
  else
    let w := { w with deltaTime := deltaTime, time := w.time + deltaTime * w.animationSpeed }
    w.calculateWindForces

/-- Clamp helper: `Math.max(lo, Math.min(hi, x))`. -/
noncomputable def clampR (lo hi x : ℝ) : ℝ :=
  max lo (min hi x)

/-- Model of `WindSimulation.setWindDirection`: clamp each axis to `[-1, 1]`. -/
noncomputable def WindSimulation.setWindDirection (w : WindSimulation) (x y z : ℝ) :
    WindSimulation :=
  { w with windDirection := ⟨clampR (-1) 1 x, clampR (-1) 1 y, clampR (-1) 1 z⟩ }

/-- Model of `WindSimulation.setWindStrength`: clamp to `[0, 2]`. -/
noncomputable def WindSimulation.setWindStrength (w : WindSimulation) (strength : ℝ) :
    WindSimulation :=
  { w with windStrength := clampR 0 2 strength }

/-- Model of `WindSimulation.setTurbulenceIntensity`: clamp to `[0, 1]`. -/
noncomputable def WindSimulation.setTurbulenceIntensity (w : WindSimulation) (intensity : ℝ) :
    WindSimulation :=
  { w with turbulenceIntensity := clampR 0 1 intensity }

/-- Model of `WindSimulation.setGustStrength`: clamp to `[0, 2]`. -/
noncomputable def WindSimulation.setGustStrength (w : WindSimulation) (strength : ℝ) :
    WindSimulation :=
  { w with gustStrength := clampR 0 2 strength }

/-- Model of `WindSimulation.setWindDampening`: clamp to `[0.1, 1]`. -/
noncomputable def WindSimulation.setWindDampening (w : WindSimulation) (dampening : ℝ) :
    WindSimulation :=
  { w with windDampening := clampR 0.1 1 dampening }

/-- Model of `WindSimulation.setWindResponsiveness`: clamp to `[0.1, 3]`. -/
noncomputable def WindSimulation.setWindResponsiveness (w : WindSimulation)
    (responsiveness : ℝ) : WindSimulation :=
  { w with windResponsiveness := clampR 0.1 3 responsiveness }

/-- Model of `WindSimulation.setWindRandomnessIntensity`: clamp to `[0, 1]`. -/
noncomputable def WindSimulation.setWindRandomnessIntensity (w : WindSimulation)
    (intensity : ℝ) : WindSimulation :=
  { w with windRandomnessIntensity := clampR 0 1 intensity }

/-- Model of `WindSimulation.setWindEnabled`: store the flag and zero the output
force when disabling. -/
def WindSimulation.setWindEnabled (w : WindSimulation) (enabled : Bool) : WindSimulation :=
  let w := { w with windEnabled := enabled }
  if enabled = false then { w with finalWindVector := Vec3.zero } else w

/-- Model of `WindSimulation.resetToCalm`: the calm preset — zero direction,
strength, turbulence intensity, gust strength and randomness, dampening
0.85 and responsiveness 1. -/
noncomputable def WindSimulation.resetToCalm (w : WindSimulation) : WindSimulation :=
  ((((((w.setWindDirection 0 0 0).setWindStrength 0).setTurbulenceIntensity 0).setGustStrength
    0).setWindDampening 0.85).setWindResponsiveness 1).setWindRandomnessIntensity 0

/-- The parameter state of a `FurRenderer` instance (constructor
defaults from the source).  `currentMesh` models whether a mesh is
loaded (`this.currentMesh` is `null` at construction).  The scene,
material and uniform plumbing is omitted: the claims below observe only
the stored parameters and whether a setter call regenerated geometry. -/
structure FurRenderer where
  finEnabled : Bool := true
  finLength : ℝ := 0.05
  maxFinCount : ℕ := 5000
  finTaperingEnabled : Bool := true
  finTaperingIntensity : ℝ := 0.7
  finTaperingCurve : String := "quadratic"
  finTaperingMethod : String := "hybrid"
  shellEnabled : Bool := true
  shellCount : ℕ := 24
  shellSpacing : ℝ := 0.005
  maxShellDistance : ℝ := 0.1
  taperingEnabled : Bool := true
  taperingIntensity : ℝ := 0.7
  taperingCurve : String := "quadratic"
  taperingMethod : String := "hybrid"
  currentMesh : Bool := false

/-- Each `FurRenderer` setter below returns the new state paired with a
`Bool` recording whether the call invoked `generateShells()` /
`generateFins()` — the "side-channel regeneration counter" of the
specification's test description. -/
def regeneratedShells (r : FurRenderer) : Bool :=
  r.shellEnabled && r.currentMesh

/-- Whether a fin-related setter call regenerates
(`this.finEnabled && this.currentMesh`). -/
def regeneratedFins (r : FurRenderer) : Bool :=
  r.finEnabled && r.currentMesh

/-- Model of `FurRenderer.setShellCount`: clamp-floor to `[8, 32]`, push the
shader uniform, and regenerate whenever shells are enabled and a mesh is
loaded — with no comparison against the previously stored value. -/
noncomputable def FurRenderer.setShellCount (r : FurRenderer) (count : ℝ) :
    FurRenderer × Bool :=
  let r := { r with shellCount := (max 8 (min 32 ⌊count⌋)).toNat }
  (r, regeneratedShells r)

/-- Model of `FurRenderer.setShellSpacing`: floor at 0.001, regenerate whenever
shells are enabled and a mesh is loaded. -/
noncomputable def FurRenderer.setShellSpacing (r : FurRenderer) (spacing : ℝ) :
    FurRenderer × Bool :=
  let r := { r with shellSpacing := max 0.001 spacing }
  (r, regeneratedShells r)

/-- Model of `FurRenderer.setMaxShellDistance`: floor at 0.01, regenerate
whenever shells are enabled and a mesh is loaded. -/
noncomputable def FurRenderer.setMaxShellDistance (r : FurRenderer) (distance : ℝ) :
    FurRenderer × Bool :=
  let r := { r with maxShellDistance := max 0.01 distance }
  (r, regeneratedShells r)

/-- Model of `FurRenderer.setFinLength`: floor at 0, regenerate whenever fins are
enabled and a mesh is loaded. -/
noncomputable def FurRenderer.setFinLength (r : FurRenderer) (length : ℝ) :
    FurRenderer × Bool :=
  let r := { r with finLength := max 0 length }
  (r, regeneratedFins r)

/-- Model of `FurRenderer.setMaxFinCount`: clamp-floor to `[200, 2000]`,
regenerate whenever fins are enabled and a mesh is loaded. -/
noncomputable def FurRenderer.setMaxFinCount (r : FurRenderer) (count : ℝ) :
    FurRenderer × Bool :=
  let r := { r with maxFinCount := (max 200 (min 2000 ⌊count⌋)).toNat }
  (r, regeneratedFins r)

/-- Model of `FurRenderer.setTaperingEnabled` (shell tapering): store the flag,
regenerate whenever shells are enabled and a mesh is loaded. -/
def FurRenderer.setTaperingEnabled (r : FurRenderer) (enabled : Bool) :
    FurRenderer × Bool :=
  let r := { r with taperingEnabled := enabled }
  (r, regeneratedShells r)

/-- Model of `FurRenderer.setTaperingIntensity` (shell tapering): clamp to
`[0, 1]`, regenerate whenever shells are enabled and a mesh is loaded. -/
noncomputable def FurRenderer.setTaperingIntensity (r : FurRenderer) (intensity : ℝ) :
    FurRenderer × Bool :=
  let r := { r with taperingIntensity := max 0 (min 1 intensity) }
  (r, regeneratedShells r)

/-- Model of `FurRenderer.setTaperingCurve` (shell tapering): for a valid curve
name, store it and regenerate whenever shells are enabled and a mesh is
loaded; an invalid name is ignored entirely. -/
def FurRenderer.setTaperingCurve (r : FurRenderer) (curve : String) :
    FurRenderer × Bool :=
  if curve ∈ validCurves then
    let r := { r with taperingCurve := curve }
    (r, regeneratedShells r)
  else (r, false)

/-- Model of `FurRenderer.setTaperingMethod` (shell tapering): for a valid method
name, store it and regenerate whenever shells are enabled and a mesh is
loaded; an invalid name is ignored entirely. -/
def FurRenderer.setTaperingMethod (r : FurRenderer) (method : String) :
    FurRenderer × Bool :=
  if method ∈ validMethods then
    let r := { r with taperingMethod := method }
    (r, regeneratedShells r)
  else (r, false)

/-- Model of `FurRenderer.setFinTaperingEnabled`: store the flag, regenerate
whenever fins are enabled and a mesh is loaded. -/
def FurRenderer.setFinTaperingEnabled (r : FurRenderer) (enabled : Bool) :
    FurRenderer × Bool :=
  let r := { r with finTaperingEnabled := enabled }
  (r, regeneratedFins r)

/-- Model of `FurRenderer.setFinTaperingIntensity`: clamp to `[0, 1]`, regenerate
whenever fins are enabled and a mesh is loaded. -/
noncomputable def FurRenderer.setFinTaperingIntensity (r : FurRenderer) (intensity : ℝ) :
    FurRenderer × Bool :=
  let r := { r with finTaperingIntensity := max 0 (min 1 intensity) }
  (r, regeneratedFins r)

/-- Model of `FurRenderer.setFinTaperingCurve`: for a valid curve name, store it
and regenerate whenever fins are enabled and a mesh is loaded. -/
def FurRenderer.setFinTaperingCurve (r : FurRenderer) (curve : String) :
    FurRenderer × Bool :=
  if curve ∈ validCurves then
    let r := { r with finTaperingCurve := curve }
    (r, regeneratedFins r)
  else (r, false)

/-- Model of `FurRenderer.setFinTaperingMethod`: for a valid method name, store
it and regenerate whenever fins are enabled and a mesh is loaded. -/
def FurRenderer.setFinTaperingMethod (r : FurRenderer) (method : String) :
    FurRenderer × Bool :=
  if method ∈ validMethods then
    let r := { r with finTaperingMethod := method }
    (r, regeneratedFins r)
  else (r, false)

/-! Concrete inputs used by the counterexamples and witnesses. -/

/-- Index list of a planar triangle fan with 100 triangles around vertex
0: triangle `i` is `(0, i+1, i+2)`.  Its triangles share edges
`(0, i+1)` pairwise, so it has exactly 201 unique edges. -/
def fanIndex : List ℕ :=
  (List.range 100).flatMap fun i => [0, i + 1, i + 2]

/-- Positions of the fan mesh: vertex 0 at the origin, vertex `i + 1` on
the parabola `(i, i², 0)` (102 vertices, no three collinear ones in a
triangle). -/
def fanPositions : List ℝ :=
  [0, 0, 0] ++ (List.range 101).flatMap fun i => [(i : ℝ), (i : ℝ) * (i : ℝ), 0]

/-- Unit normals of the planar fan mesh (all `(0, 0, 1)`). -/
def fanNormals : List ℝ :=
  (List.range 102).flatMap fun _ => [0, 0, 1]

/-- The indexed fan mesh with 100 triangles and 201 unique edges. -/
def fanMesh : BufferGeometry :=
  { positions := some fanPositions, normals := some fanNormals, index := some fanIndex }

/-- A `FinGeometry` whose fin cap is configured to 200 (the smallest
value accepted by `setMaxFinCount`). -/
def finState200 : FinGeometry :=
  { maxFinCount := 200 }

/-- A unit quad as an indexed mesh: 4 shared vertices, 2 triangles
sharing the diagonal edge `(1, 2)`. -/
def quadMeshIndexed : BufferGeometry :=
  { positions := some [0, 0, 0, 1, 0, 0, 0, 1, 0, 1, 1, 0]
    normals := some [0, 0, 1, 0, 0, 1, 0, 0, 1, 0, 0, 1]
    uvs := some [0, 0, 1, 0, 0, 1, 1, 1]
    index := some [0, 1, 2, 2, 1, 3] }

/-- The same unit quad as a non-indexed mesh: 6 vertices, 3 per
triangle; the diagonal vertices are duplicated (vertices 2 = 3 and
1 = 4 coincide geometrically but have distinct vertex indices). -/
def quadMeshNonIndexed : BufferGeometry :=
  { positions := some [0, 0, 0, 1, 0, 0, 0, 1, 0, 0, 1, 0, 1, 0, 0, 1, 1, 0]
    normals := some [0, 0, 1, 0, 0, 1, 0, 0, 1, 0, 0, 1, 0, 0, 1, 0, 0, 1] }

/-- Index list of a cube with 8 corner vertices and 12 triangles
(vertex `i` has coordinates `((-0.5 or 0.5) by bit 0, bit 1, bit 2)`). -/
def cubeIndex : List ℕ :=
  [0, 2, 1, 1, 2, 3, 4, 5, 6, 5, 7, 6, 0, 1, 4, 1, 5, 4,
   2, 6, 3, 3, 6, 7, 0, 4, 2, 2, 4, 6, 1, 3, 5, 3, 7, 5]

/-- Corner positions of the unit cube centred at the origin. -/
noncomputable def cubePositions : List ℝ :=
  [-0.5, -0.5, -0.5, 0.5, -0.5, -0.5, -0.5, 0.5, -0.5, 0.5, 0.5, -0.5,
   -0.5, -0.5, 0.5, 0.5, -0.5, 0.5, -0.5, 0.5, 0.5, 0.5, 0.5, 0.5]

/-- Outward diagonal vertex normals of the cube corners (components
`±0.577 ≈ ±1/√3`). -/
noncomputable def cubeNormals : List ℝ :=
  [-0.577, -0.577, -0.577, 0.577, -0.577, -0.577, -0.577, 0.577, -0.577,
   0.577, 0.577, -0.577, -0.577, -0.577, 0.577, 0.577, -0.577, 0.577,
   -0.577, 0.577, 0.577, 0.577, 0.577, 0.577]

/-- The indexed cube mesh (8 vertices, 12 triangular faces). -/
noncomputable def cubeMesh : BufferGeometry :=
  { positions := some cubePositions, normals := some cubeNormals,
    uvs := some (List.replicate 16 0), index := some cubeIndex }

/-- A `ShellGeometry` configured as in the specification's round-trip
test: `shellCount = 8`, `spacing = 0.02`, `maxDistance = 0.1`. -/
noncomputable def cubeShellState : ShellGeometry :=
  { shellCount := 8, shellSpacing := 0.02, maxShellDistance := 0.1 }

/-- A dummy generated shell geometry, standing in a `ShellGeometry`
state for a previously generated layer. -/
def dummyGeometry : BufferGeometry := { uuid := 7 }

/-- A `ShellGeometry` state that currently holds one generated layer. -/
def shellStateWithLayer : ShellGeometry :=
  { shellCount := 16, shellSpacing := 1, maxShellDistance := 1,
    taperingEnabled := true, taperingIntensity := 1,
    taperingCurve := "quadratic", taperingMethod := "hybrid",
    shellGeometries := [dummyGeometry], baseGeometry := none,
    geometryPool := [], maxPoolSize := 64 }

/-- A `FurRenderer` with a mesh loaded and all defaults otherwise. -/
def rendererWithMesh : FurRenderer :=
  { currentMesh := true }

/-- A wind simulation constructed with zero noise offsets. -/
def windW0 : WindSimulation :=
  WindSimulation.init Vec3.zero

/-- The wind simulation `windW0` with wind disabled. -/
def windW0disabled : WindSimulation :=
  windW0.setWindEnabled false

/-- A default `ShellGeometry` (tapering enabled, intensity 0.7,
quadratic curve). -/
noncomputable def shellDefault : ShellGeometry := {}

/-- A default `FinGeometry` (tapering enabled, intensity 0.7, quadratic
curve). -/
noncomputable def finDefault : FinGeometry := {}

open Classical in
/-- The curve factor of the shared tapering formula of §4.4 of the
specification: `p` for `linear`, `p²` for `quadratic`, `p^2.5` for
`exponential`, and the quadratic factor for an unrecognized curve
selector. -/
noncomputable def taperingCurveFactor (curve : String) (p : ℝ) : ℝ :=
  if curve = "linear" then p
  else if curve = "quadratic" then p * p
  else if curve = "exponential" then p ^ ((2.5 : ℝ))
  else p * p

/-- The calm-preset parameter configuration: zero wind direction,
strength, turbulence intensity and gust strength. -/
def calmParams (w : WindSimulation) : Prop :=
  w.windDirection = Vec3.zero ∧ w.windStrength = 0 ∧
  w.turbulenceIntensity = 0 ∧ w.gustStrength = 0

/-- A `FinGeometry` with fin cap 2, for small concrete stride
instances. -/
def finState2 : FinGeometry :=
  { maxFinCount := 2 }

/-- A triangle's worth of edges (3 distinct unique edges). -/
def triangleEdges : List Edge :=
  [⟨0, 1⟩, ⟨1, 2⟩, ⟨2, 0⟩]

/-! ### Theorems -/

/-- The shell tapering scale is the shared §4.4 formula. -/
theorem shell_calculateTaperingScale_eq (s : ShellGeometry) (p : ℝ) :
    s.calculateTaperingScale p =
      if ¬ s.taperingEnabled ∨ s.taperingIntensity = 0 then 1
      else 1 - taperingCurveFactor s.taperingCurve p * s.taperingIntensity := by
  unfold ShellGeometry.calculateTaperingScale taperingCurveFactor
  split_ifs <;> rfl

/-- The fin tapering scale is the shared §4.4 formula. -/
theorem fin_calculateTaperingScale_eq (f : FinGeometry) (p : ℝ) :
    f.calculateTaperingScale p =
      if ¬ f.taperingEnabled ∨ f.taperingIntensity = 0 then 1
      else 1 - taperingCurveFactor f.taperingCurve p * f.taperingIntensity := by
  unfold FinGeometry.calculateTaperingScale taperingCurveFactor
  split_ifs <;> rfl

/-- The curve factor is nonnegative on nonnegative positions. -/
theorem taperingCurveFactor_nonneg (c : String) (p : ℝ) (hp : 0 ≤ p) :
    0 ≤ taperingCurveFactor c p := by
  unfold taperingCurveFactor
  split_ifs
  · exact hp
  · exact mul_nonneg hp hp
  · exact Real.rpow_nonneg hp _
  · exact mul_nonneg hp hp

/-- The curve factor is at most 1 on `[0, 1]`. -/
theorem taperingCurveFactor_le_one (c : String) (p : ℝ) (hp0 : 0 ≤ p) (hp1 : p ≤ 1) :
    taperingCurveFactor c p ≤ 1 := by
  unfold taperingCurveFactor
  split_ifs
  · exact hp1
  · exact mul_le_one₀ hp1 hp0 hp1
  · exact Real.rpow_le_one hp0 hp1 (by norm_num)
  · exact mul_le_one₀ hp1 hp0 hp1

/-- The curve factor vanishes at the base position 0 for every curve. -/
theorem taperingCurveFactor_zero (c : String) : taperingCurveFactor c 0 = 0 := by
  unfold taperingCurveFactor
  split_ifs
  · rfl
  · exact mul_zero 0
  · exact Real.zero_rpow (by norm_num)
  · exact mul_zero 0

/-- The curve factor is 1 at the tip position 1 for every curve. -/
theorem taperingCurveFactor_one (c : String) : taperingCurveFactor c 1 = 1 := by
  unfold taperingCurveFactor
  split_ifs
  · rfl
  · exact mul_one 1
  · exact Real.one_rpow _
  · exact mul_one 1

/-- C6: for every tapering configuration with intensity in `[0, 1]` and
every normalized position `p` in `[0, 1]`, the tapering scale is 1 when
tapering is disabled or the intensity is 0, and `1 - curveFactor·intensity`
otherwise (curve factor `p`/`p²`/`p^2.5` by curve, quadratic as default);
the scale is 1 at position 0, `1 - intensity` at position 1 (when the
formula branch or the zero-intensity case applies), and always lies in
`[0, 1]`. -/
theorem claim_C6 (s : ShellGeometry) (p : ℝ)
    (hi0 : 0 ≤ s.taperingIntensity) (hi1 : s.taperingIntensity ≤ 1)
    (hp0 : 0 ≤ p) (hp1 : p ≤ 1) :
    (¬ s.taperingEnabled ∨ s.taperingIntensity = 0 → s.calculateTaperingScale p = 1) ∧
    (s.taperingEnabled = true → s.taperingIntensity ≠ 0 →
      s.calculateTaperingScale p =
        1 - taperingCurveFactor s.taperingCurve p * s.taperingIntensity) ∧
    s.calculateTaperingScale 0 = 1 ∧
    (s.taperingEnabled = true ∨ s.taperingIntensity = 0 →
      s.calculateTaperingScale 1 = 1 - s.taperingIntensity) ∧
    0 ≤ s.calculateTaperingScale p ∧ s.calculateTaperingScale p ≤ 1 := by
  rw [shell_calculateTaperingScale_eq s p, shell_calculateTaperingScale_eq s 0,
    shell_calculateTaperingScale_eq s 1]
  refine ⟨?_, ?_, ?_, ?_, ?_, ?_⟩
  · intro h
    rw [if_pos h]
  · intro he hi
    rw [if_neg (by simp [he, hi])]
  · by_cases h : ¬ s.taperingEnabled ∨ s.taperingIntensity = 0
    · rw [if_pos h]
    · rw [if_neg h, taperingCurveFactor_zero, zero_mul, sub_zero]
  · intro h
    by_cases hi : s.taperingIntensity = 0
    · rw [if_pos (Or.inr hi), hi, sub_zero]
    · rcases h with he | he
      · rw [if_neg (by simp [he, hi]), taperingCurveFactor_one, one_mul]
      · exact absurd he hi
  · by_cases h : ¬ s.taperingEnabled ∨ s.taperingIntensity = 0
    · rw [if_pos h]; norm_num
    · rw [if_neg h]
      have := mul_le_one₀ (taperingCurveFactor_le_one s.taperingCurve p hp0 hp1) hi0 hi1
      linarith
  · by_cases h : ¬ s.taperingEnabled ∨ s.taperingIntensity = 0
    · rw [if_pos h]
    · rw [if_neg h]
      have := mul_nonneg (taperingCurveFactor_nonneg s.taperingCurve p hp0) hi0
      linarith

/-- Witness for C6 at the default shell configuration (tapering enabled,
intensity 0.7, quadratic curve) and position 1/2. -/
theorem claim_C6_witness :
    (¬ shellDefault.taperingEnabled ∨ shellDefault.taperingIntensity = 0 →
      shellDefault.calculateTaperingScale 0.5 = 1) ∧
    (shellDefault.taperingEnabled = true → shellDefault.taperingIntensity ≠ 0 →
      shellDefault.calculateTaperingScale 0.5 =
        1 - taperingCurveFactor shellDefault.taperingCurve 0.5 * shellDefault.taperingIntensity) ∧
    shellDefault.calculateTaperingScale 0 = 1 ∧
    (shellDefault.taperingEnabled = true ∨ shellDefault.taperingIntensity = 0 →
      shellDefault.calculateTaperingScale 1 = 1 - shellDefault.taperingIntensity) ∧
    0 ≤ shellDefault.calculateTaperingScale 0.5 ∧
    shellDefault.calculateTaperingScale 0.5 ≤ 1 :=
  claim_C6 shellDefault 0.5 (by norm_num [shellDefault]) (by norm_num [shellDefault])
    (by norm_num) (by norm_num)

/-- C7: the shell builder's and the fin builder's tapering-scale
functions are extensionally equal — identical (enabled, intensity,
curve) configurations give identical scales at every normalized
position. -/
theorem claim_C7 (s : ShellGeometry) (f : FinGeometry)
    (he : s.taperingEnabled = f.taperingEnabled)
    (hi : s.taperingIntensity = f.taperingIntensity)
    (hc : s.taperingCurve = f.taperingCurve) (p : ℝ) :
    s.calculateTaperingScale p = f.calculateTaperingScale p := by
  rw [shell_calculateTaperingScale_eq, fin_calculateTaperingScale_eq, he, hi, hc]

/-- Witness for C7 at the default shell and fin configurations (whose
tapering fields coincide) and position 1/2. -/
theorem claim_C7_witness :
    shellDefault.calculateTaperingScale 0.5 = finDefault.calculateTaperingScale 0.5 :=
  claim_C7 shellDefault finDefault rfl rfl rfl 0.5

/-- C8: the shell offset distance is `(i/shellCount)^1.2 * maxDistance`;
it is strictly increasing in the layer index over `[1, shellCount]` and
equals `maxDistance` exactly at the outermost layer. -/
theorem claim_C8 (n i j : ℕ) (maxD : ℝ) (hi : 1 ≤ i) (hij : i < j) (hj : j ≤ n)
    (hmax : 0 < maxD) :
    shellOffsetDistance i n maxD = ((i : ℝ) / (n : ℝ)) ^ ((1.2 : ℝ)) * maxD ∧
    shellOffsetDistance i n maxD < shellOffsetDistance j n maxD ∧
    shellOffsetDistance n n maxD = maxD := by
  have hn : 0 < n := by omega
  have hnR : (0 : ℝ) < (n : ℝ) := by exact_mod_cast hn
  refine ⟨rfl, ?_, ?_⟩
  · unfold shellOffsetDistance
    have hab : (i : ℝ) / (n : ℝ) < (j : ℝ) / (n : ℝ) :=
      (div_lt_div_iff_of_pos_right hnR).mpr (by exact_mod_cast hij)
    have ha : (0 : ℝ) ≤ (i : ℝ) / (n : ℝ) := div_nonneg (Nat.cast_nonneg i) hnR.le
    exact mul_lt_mul_of_pos_right (Real.rpow_lt_rpow ha hab (by norm_num)) hmax
  · unfold shellOffsetDistance
    rw [div_self (ne_of_gt hnR), Real.one_rpow, one_mul]

/-- Witness for C8: layers 1 and 2 of a 16-layer stack with maximum
distance 0.1, and exactness at the outermost layer. -/
theorem claim_C8_witness :
    shellOffsetDistance 1 16 0.1 = (((1 : ℕ) : ℝ) / ((16 : ℕ) : ℝ)) ^ ((1.2 : ℝ)) * 0.1 ∧
    shellOffsetDistance 1 16 0.1 < shellOffsetDistance 2 16 0.1 ∧
    shellOffsetDistance 16 16 0.1 = 0.1 :=
  claim_C8 16 1 2 0.1 (by norm_num) (by norm_num) (by norm_num) (by norm_num)

/-- Recomputing the wind forces touches only the cached force vectors:
time and every parameter field are preserved. -/
theorem calculateWindForces_fields (w : WindSimulation) :
    w.calculateWindForces.time = w.time ∧
    w.calculateWindForces.windEnabled = w.windEnabled ∧
    w.calculateWindForces.animationSpeed = w.animationSpeed ∧
    w.calculateWindForces.windDirection = w.windDirection ∧
    w.calculateWindForces.windStrength = w.windStrength ∧
    w.calculateWindForces.turbulenceIntensity = w.turbulenceIntensity ∧
    w.calculateWindForces.gustStrength = w.gustStrength := by
  unfold WindSimulation.calculateWindForces WindSimulation.calculateBaseWindForce
    WindSimulation.calculateTurbulence WindSimulation.calculateGusts
    WindSimulation.combineFinalWindVector
  split_ifs <;> exact ⟨rfl, rfl, rfl, rfl, rfl, rfl, rfl⟩

/-- C4: `update(deltaTime)` zeroes the output force and leaves the
accumulated time unchanged when wind is disabled; when enabled it
advances the accumulated time by exactly `deltaTime * animationSpeed`,
so for `deltaTime ≥ 0` (and the invariant `animationSpeed ≥ 0`) the
accumulated time never decreases. -/
theorem claim_C4 (w : WindSimulation) (dt : ℝ) :
    (w.windEnabled = false →
      (w.update dt).finalWindVector = Vec3.zero ∧ (w.update dt).time = w.time) ∧
    (w.windEnabled = true →
      (w.update dt).time = w.time + dt * w.animationSpeed) ∧
    (0 ≤ dt → 0 ≤ w.animationSpeed → w.time ≤ (w.update dt).time) := by
  unfold WindSimulation.update
  refine ⟨?_, ?_, ?_⟩
  · intro h
    rw [if_pos h]
    exact ⟨rfl, rfl⟩
  · intro h
    rw [if_neg (by simp [h])]
    exact (calculateWindForces_fields
      { w with deltaTime := dt, time := w.time + dt * w.animationSpeed }).1
  · intro hdt hsp
    by_cases h : w.windEnabled = false
    · rw [if_pos h]
    · rw [if_neg h]
      have ht := (calculateWindForces_fields
        { w with deltaTime := dt, time := w.time + dt * w.animationSpeed }).1
      rw [ht]
      have := mul_nonneg hdt hsp
      show w.time ≤ w.time + dt * w.animationSpeed
      linarith

/-- Witness for C4: a disabled simulation keeps its time and zeroes the
force; an enabled one advances its time by `1 * animationSpeed`. -/
theorem claim_C4_witness :
    (windW0disabled.update 1).finalWindVector = Vec3.zero ∧
    (windW0disabled.update 1).time = windW0disabled.time ∧
    (windW0.update 1).time = windW0.time + 1 * windW0.animationSpeed ∧
    windW0.time ≤ (windW0.update 1).time :=
  ⟨((claim_C4 windW0disabled 1).1 rfl).1, ((claim_C4 windW0disabled 1).1 rfl).2,
   (claim_C4 windW0 1).2.1 rfl,
   (claim_C4 windW0 1).2.2 (by norm_num) (by norm_num [windW0, WindSimulation.init])⟩

/-- With calm parameters, recomputing the wind forces yields the zero
force vector and keeps the parameters calm. -/
theorem calculateWindForces_calm (w : WindSimulation) (h : calmParams w) :
    calmParams w.calculateWindForces ∧
    w.calculateWindForces.finalWindVector = Vec3.zero := by
  obtain ⟨hd, hs, ht, hg⟩ := h
  unfold WindSimulation.calculateWindForces WindSimulation.calculateBaseWindForce
    WindSimulation.calculateTurbulence WindSimulation.calculateGusts
    WindSimulation.combineFinalWindVector
  split_ifs <;>
    simp_all [calmParams, Vec3.add, Vec3.smul, Vec3.zero]

/-- Model of `update` preserves calm parameters and, from a calm state, always
produces the zero force vector. -/
theorem update_preserves_calm (w : WindSimulation) (dt : ℝ) (h : calmParams w) :
    calmParams (w.update dt) ∧ (w.update dt).finalWindVector = Vec3.zero := by
  unfold WindSimulation.update
  by_cases he : w.windEnabled = false
  · rw [if_pos he]
    exact ⟨h, rfl⟩
  · rw [if_neg he]
    exact calculateWindForces_calm
      { w with deltaTime := dt, time := w.time + dt * w.animationSpeed } h

/-- Iterating `update` from a calm state with zero force keeps the force
at zero. -/
theorem foldl_update_calm (dts : List ℝ) :
    ∀ (s : WindSimulation), calmParams s → s.finalWindVector = Vec3.zero →
      (dts.foldl WindSimulation.update s).finalWindVector = Vec3.zero := by
  induction dts with
  | nil => intro s _ hf; exact hf
  | cons d ds ih =>
    intro s h _
    have h2 := update_preserves_calm s d h
    exact ih _ h2.1 h2.2

/-- Model of `resetToCalm` establishes the calm parameter configuration. -/
theorem resetToCalm_calm (w : WindSimulation) : calmParams w.resetToCalm := by
  unfold WindSimulation.resetToCalm WindSimulation.setWindDirection
    WindSimulation.setWindStrength WindSimulation.setTurbulenceIntensity
    WindSimulation.setGustStrength WindSimulation.setWindDampening
    WindSimulation.setWindResponsiveness WindSimulation.setWindRandomnessIntensity
    clampR calmParams
  refine ⟨?_, ?_, ?_, ?_⟩ <;> simp [Vec3.zero]

/-- C5: after the calm preset (zero direction, strength, turbulence and
gust strength), every subsequent sequence of `update` calls — whatever
the delta times — leaves the current wind force vector at `(0, 0, 0)`. -/
theorem claim_C5 (w : WindSimulation) (dt : ℝ) (dts : List ℝ) :
    (dts.foldl WindSimulation.update (w.resetToCalm.update dt)).finalWindVector =
      Vec3.zero := by
  have h2 := update_preserves_calm w.resetToCalm dt (resetToCalm_calm w)
  exact foldl_update_calm dts _ h2.1 h2.2

/-- Counterexample to C2: with shells and fins enabled and a mesh
loaded (all constructor defaults except the mesh), calling
`setShellCount` with the currently stored value 24 and `setFinLength`
with the currently stored value 0.05 leaves the stored values unchanged
and still triggers regeneration — the claimed equal-value no-op does not
exist in the code. -/
theorem claim_C2_counterexample :
    rendererWithMesh.shellCount = 24 ∧
    (rendererWithMesh.setShellCount 24).1.shellCount = 24 ∧
    (rendererWithMesh.setShellCount 24).2 = true ∧
    rendererWithMesh.finLength = 0.05 ∧
    (rendererWithMesh.setFinLength 0.05).1.finLength = 0.05 ∧
    (rendererWithMesh.setFinLength 0.05).2 = true := by
  refine ⟨rfl, ?_, rfl, rfl, ?_, rfl⟩
  · show (max 8 (min 32 ⌊(24 : ℝ)⌋)).toNat = 24
    norm_num
    decide
  · show max 0 (0.05 : ℝ) = 0.05
    norm_num

/-- C2 (amended): every parameter setter of the fur renderer
regenerates exactly when the corresponding geometry kind is enabled and
a mesh is loaded (and, for the enum setters, the value is a valid enum
name) — regardless of whether the new value equals the stored one. -/
theorem claim_C2_amended (r : FurRenderer) (v : ℝ) (b : Bool) (c m : String) :
    (r.setShellCount v).2 = (r.shellEnabled && r.currentMesh) ∧
    (r.setShellSpacing v).2 = (r.shellEnabled && r.currentMesh) ∧
    (r.setMaxShellDistance v).2 = (r.shellEnabled && r.currentMesh) ∧
    (r.setTaperingEnabled b).2 = (r.shellEnabled && r.currentMesh) ∧
    (r.setTaperingIntensity v).2 = (r.shellEnabled && r.currentMesh) ∧
    (r.setTaperingCurve c).2 =
      (decide (c ∈ validCurves) && (r.shellEnabled && r.currentMesh)) ∧
    (r.setTaperingMethod m).2 =
      (decide (m ∈ validMethods) && (r.shellEnabled && r.currentMesh)) ∧
    (r.setFinLength v).2 = (r.finEnabled && r.currentMesh) ∧
    (r.setMaxFinCount v).2 = (r.finEnabled && r.currentMesh) ∧
    (r.setFinTaperingEnabled b).2 = (r.finEnabled && r.currentMesh) ∧
    (r.setFinTaperingIntensity v).2 = (r.finEnabled && r.currentMesh) ∧
    (r.setFinTaperingCurve c).2 =
      (decide (c ∈ validCurves) && (r.finEnabled && r.currentMesh)) ∧
    (r.setFinTaperingMethod m).2 =
      (decide (m ∈ validMethods) && (r.finEnabled && r.currentMesh)) := by
  unfold FurRenderer.setShellCount FurRenderer.setShellSpacing
    FurRenderer.setMaxShellDistance FurRenderer.setTaperingEnabled
    FurRenderer.setTaperingIntensity FurRenderer.setTaperingCurve
    FurRenderer.setTaperingMethod FurRenderer.setFinLength
    FurRenderer.setMaxFinCount FurRenderer.setFinTaperingEnabled
    FurRenderer.setFinTaperingIntensity FurRenderer.setFinTaperingCurve
    FurRenderer.setFinTaperingMethod regeneratedShells regeneratedFins
  refine ⟨rfl, rfl, rfl, rfl, rfl, ?_, ?_, rfl, rfl, rfl, rfl, ?_, ?_⟩ <;>
    split_ifs <;> simp_all

/-- Counterexample to C10: the curve and method setters are not
unconditional — with an invalid curve name the call is ignored, the
previously generated layers are neither disposed nor dropped, and
`getShellGeometries` still returns them. -/
theorem claim_C10_counterexample :
    (shellStateWithLayer.setTaperingCurve "circular").getShellGeometries =
      [dummyGeometry] ∧
    (shellStateWithLayer.setTaperingCurve "circular").getShellGeometries ≠ [] := by
  constructor
  · unfold ShellGeometry.setTaperingCurve ShellGeometry.getShellGeometries
    rw [if_neg (by simp [validCurves])]
    rfl
  · unfold ShellGeometry.setTaperingCurve ShellGeometry.getShellGeometries
    rw [if_neg (by simp [validCurves])]
    simp [shellStateWithLayer, dummyGeometry]

/-- C10 (amended): the numeric and boolean shell-parameter setters
unconditionally dispose the generated layers and empty the list — even
when the argument equals (or clamps back to) the stored value — while
the curve/method setters do so exactly when the argument is a valid enum
name (equal to the stored one or not) and leave the state untouched
otherwise. -/
theorem claim_C10_amended (st : ShellGeometry) (v : ℝ) (b : Bool) (c m : String) :
    (st.setShellCount v).getShellGeometries = [] ∧
    (st.setShellSpacing v).getShellGeometries = [] ∧
    (st.setMaxShellDistance v).getShellGeometries = [] ∧
    (st.setTaperingEnabled b).getShellGeometries = [] ∧
    (st.setTaperingIntensity v).getShellGeometries = [] ∧
    (st.setTaperingCurve c).getShellGeometries =
      (if c ∈ validCurves then [] else st.shellGeometries) ∧
    (st.setTaperingMethod m).getShellGeometries =
      (if m ∈ validMethods then [] else st.shellGeometries) := by
  unfold ShellGeometry.setShellCount ShellGeometry.setShellSpacing
    ShellGeometry.setMaxShellDistance ShellGeometry.setTaperingEnabled
    ShellGeometry.setTaperingIntensity ShellGeometry.setTaperingCurve
    ShellGeometry.setTaperingMethod ShellGeometry.clearShells
    ShellGeometry.getShellGeometries
  refine ⟨rfl, rfl, rfl, rfl, rfl, ?_, ?_⟩ <;> split_ifs <;> rfl

/-- The index-based filter keeps as many elements as there are accepted
indices in the index range it walks. -/
theorem filterWithIndex_length {α : Type} (p : ℕ → Bool) :
    ∀ (l : List α) (i : ℕ),
      (filterWithIndex p l i).length = (List.range' i l.length).countP p := by
  intro l
  induction l with
  | nil => intro i; rfl
  | cons a rest ih =>
    intro i
    show (if p i then a :: filterWithIndex p rest (i + 1)
      else filterWithIndex p rest (i + 1)).length = _
    rw [List.length_cons, List.range'_succ, List.countP_cons]
    by_cases hp : p i
    · rw [if_pos hp, List.length_cons, ih, if_pos hp]
    · rw [if_neg hp, ih, if_neg hp]
      omega

/-- The number of multiples of `s` below `u` (for `0 < s`, `0 < u`):
`(u - 1) / s + 1`. -/
theorem countP_mod_range (s : ℕ) (hs : 0 < s) :
    ∀ (u : ℕ), 0 < u →
      (List.range u).countP (fun j => j % s == 0) = (u - 1) / s + 1 := by
  intro u
  induction u with
  | zero => intro h; omega
  | succ n ih =>
    intro _
    by_cases hn : n = 0
    · subst hn
      simp [List.range_succ]
    · rw [List.range_succ, List.countP_append, ih (by omega)]
      have hsd := Nat.succ_div (n - 1) s
      rw [show n - 1 + 1 = n from by omega] at hsd
      simp only [List.countP_cons, List.countP_nil, beq_iff_eq]
      rw [show n + 1 - 1 = n from rfl]
      by_cases hdvd : s ∣ n
      · have hmod : n % s = 0 := Nat.mod_eq_zero_of_dvd hdvd
        rw [if_pos hdvd] at hsd
        rw [if_pos hmod]
        omega
      · have hmod : n % s ≠ 0 := fun h => hdvd (Nat.dvd_of_mod_eq_zero h)
        rw [if_neg hdvd] at hsd
        rw [if_neg hmod]
        omega

/-- Length of the stride filter: keeping the indices divisible by `s`
out of a nonempty list of length `u` keeps `(u - 1) / s + 1` elements. -/
theorem filterWithIndex_mod_length {α : Type} (s : ℕ) (hs : 0 < s) (l : List α)
    (hl : 0 < l.length) :
    (filterWithIndex (fun index => index % s == 0) l 0).length =
      (l.length - 1) / s + 1 := by
  rw [filterWithIndex_length, ← List.range_eq_range']
  exact countP_mod_range s hs l.length hl

/-- The stride filter returns a sublist (the kept edges stay in their
original enumeration order). -/
theorem filterWithIndex_sublist {α : Type} (p : ℕ → Bool) :
    ∀ (l : List α) (i : ℕ), List.Sublist (filterWithIndex p l i) l := by
  intro l
  induction l with
  | nil => intro i; exact List.Sublist.refl []
  | cons a rest ih =>
    intro i
    show List.Sublist (if p i then a :: filterWithIndex p rest (i + 1)
      else filterWithIndex p rest (i + 1)) (a :: rest)
    by_cases hp : p i
    · rw [if_pos hp]; exact List.Sublist.cons₂ a (ih (i + 1))
    · rw [if_neg hp]; exact List.Sublist.cons a (ih (i + 1))

/-- Edge deduplication returns a sublist of the input (first occurrences
in enumeration order). -/
theorem dedupEdges_sublist :
    ∀ (l : List Edge) (seen : List (ℕ × ℕ)), List.Sublist (dedupEdges l seen) l := by
  intro l
  induction l with
  | nil => intro seen; exact List.Sublist.refl []
  | cons e rest ih =>
    intro seen
    show List.Sublist (if edgeKey e ∈ seen then dedupEdges rest seen
      else e :: dedupEdges rest (edgeKey e :: seen)) (e :: rest)
    by_cases h : edgeKey e ∈ seen
    · rw [if_pos h]; exact List.Sublist.cons e (ih seen)
    · rw [if_neg h]; exact List.Sublist.cons₂ e (ih (edgeKey e :: seen))

/-- The edges kept by deduplication avoid the already-seen keys and have
pairwise distinct canonical keys. -/
theorem dedupEdges_keys :
    ∀ (l : List Edge) (seen : List (ℕ × ℕ)),
      (∀ u ∈ dedupEdges l seen, edgeKey u ∉ seen) ∧
      (dedupEdges l seen).Pairwise (fun a b => edgeKey a ≠ edgeKey b) := by
  intro l
  induction l with
  | nil => intro seen; exact ⟨fun u hu => absurd hu (List.not_mem_nil u), List.Pairwise.nil⟩
  | cons e rest ih =>
    intro seen
    simp only [dedupEdges]
    split_ifs with h
    · exact ih seen
    · obtain ⟨hnot, hpair⟩ := ih (edgeKey e :: seen)
      refine ⟨?_, ?_⟩
      · intro u hu
        rcases List.mem_cons.mp hu with rfl | hu
        · exact h
        · exact fun hs => hnot u hu (List.mem_cons_of_mem _ hs)
      · exact List.Pairwise.cons
          (fun u hu => fun hk => hnot u hu (hk ▸ List.mem_cons_self _ _)) hpair

/-- Every input edge's canonical key is represented in the
deduplicated list (or was already seen). -/
theorem dedupEdges_covers :
    ∀ (l : List Edge) (seen : List (ℕ × ℕ)) (e : Edge), e ∈ l →
      edgeKey e ∈ seen ∨ ∃ u ∈ dedupEdges l seen, edgeKey u = edgeKey e := by
  intro l
  induction l with
  | nil => intro seen e he; exact absurd he (List.not_mem_nil e)
  | cons a rest ih =>
    intro seen e he
    simp only [dedupEdges]
    split_ifs with h
    · rcases List.mem_cons.mp he with rfl | he
      · exact Or.inl h
      · rcases ih seen e he with hks | ⟨u, hu, hk⟩
        · exact Or.inl hks
        · exact Or.inr ⟨u, hu, hk⟩
    · rcases List.mem_cons.mp he with rfl | he
      · exact Or.inr ⟨e, List.mem_cons_self _ _, rfl⟩
      · rcases ih (edgeKey a :: seen) e he with hks | ⟨u, hu, hk⟩
        · rcases List.mem_cons.mp hks with hke | hks
          · exact Or.inr ⟨a, List.mem_cons_self _ _, hke.symm⟩
          · exact Or.inl hks
        · exact Or.inr ⟨u, List.mem_cons_of_mem _ hu, hk⟩

/-- Model of `generateFins` produces exactly one fin per retained edge. -/
theorem generateFins_length (f : FinGeometry) (g : BufferGeometry) :
    ((f.generateFins (some g)).2).length = (f.extractEdges g).length := by
  unfold FinGeometry.generateFins
  simp only [List.length_map]
  rfl

set_option maxRecDepth 10000 in
/-- Counterexample to C1: with the fin cap configured to 200 (a value
`setMaxFinCount` accepts verbatim), the 100-triangle fan mesh has 201
unique edges, the subsample step is `floor(201/200) = 1`, every edge is
kept, and fin generation returns 201 fins — more than `maxFinCount`. -/
theorem claim_C1_counterexample :
    ((({} : FinGeometry).setMaxFinCount 200).maxFinCount = 200) ∧
    finState200.maxFinCount = 200 ∧
    ((finState200.generateFins (some fanMesh)).2).length = 201 ∧
    ¬ ((finState200.generateFins (some fanMesh)).2).length ≤ finState200.maxFinCount := by
  have hlen : ((finState200.generateFins (some fanMesh)).2).length = 201 := by
    rw [generateFins_length]
    decide
  refine ⟨?_, rfl, hlen, ?_⟩
  · show (max 200 (min 2000 ⌊(200 : ℝ)⌋)).toNat = 200
    norm_num
    decide
  · rw [hlen]
    decide

/-- C1 (amended): when the unique-edge count `u` exceeds the configured
`maxFinCount = m`, fin generation keeps exactly the unique edges at
indices divisible by `step = floor(u/m)`, in original enumeration order
— `floor((u-1)/step) + 1` fins, which is close to `m` but can exceed it
whenever `step · m < u` (e.g. 201 edges with cap 200 give 201 fins);
the selection is a deterministic function of the mesh and the cap, and
fin generation returns exactly one fin per retained edge. -/
theorem claim_C1_amended (f : FinGeometry) (edges : List Edge)
    (hm : 0 < f.maxFinCount)
    (hgt : f.maxFinCount < (dedupEdges edges []).length) :
    f.filterUniqueEdges edges =
      filterWithIndex
        (fun index => index % ((dedupEdges edges []).length / f.maxFinCount) == 0)
        (dedupEdges edges []) 0 ∧
    (f.filterUniqueEdges edges).length =
      ((dedupEdges edges []).length - 1) /
        ((dedupEdges edges []).length / f.maxFinCount) + 1 ∧
    List.Sublist (f.filterUniqueEdges edges) (dedupEdges edges []) ∧
    (∀ g : BufferGeometry,
      ((f.generateFins (some g)).2).length = (f.extractEdges g).length) := by
  have hstep : 0 < (dedupEdges edges []).length / f.maxFinCount :=
    Nat.div_pos (le_of_lt hgt) hm
  have heq : f.filterUniqueEdges edges =
      filterWithIndex
        (fun index => index % ((dedupEdges edges []).length / f.maxFinCount) == 0)
        (dedupEdges edges []) 0 := by
    unfold FinGeometry.filterUniqueEdges
    rw [if_pos hgt]
  refine ⟨heq, ?_, ?_, fun g => generateFins_length f g⟩
  · rw [heq]
    exact filterWithIndex_mod_length _ hstep _ (by omega)
  · rw [heq]
    exact filterWithIndex_sublist _ _ _

/-- Witness for C1 (amended) at a cap of 2 and a triangle's 3 unique
edges: step `floor(3/2) = 1`, all 3 edges kept, `(3-1)/1 + 1 = 3`. -/
theorem claim_C1_witness :
    finState2.filterUniqueEdges triangleEdges =
      filterWithIndex
        (fun index => index %
          ((dedupEdges triangleEdges []).length / finState2.maxFinCount) == 0)
        (dedupEdges triangleEdges []) 0 ∧
    (finState2.filterUniqueEdges triangleEdges).length =
      ((dedupEdges triangleEdges []).length - 1) /
        ((dedupEdges triangleEdges []).length / finState2.maxFinCount) + 1 ∧
    List.Sublist (finState2.filterUniqueEdges triangleEdges)
      (dedupEdges triangleEdges []) ∧
    (∀ g : BufferGeometry,
      ((finState2.generateFins (some g)).2).length =
        (finState2.extractEdges g).length) :=
  claim_C1_amended finState2 triangleEdges (by decide) (by decide)

/-- Counterexample to C3: the same quad given non-indexed (6 vertices, 2
triangles that share the diagonal geometrically) yields 6 fins, not 5 —
non-indexed triangles get fresh per-triangle vertex indices, so the
canonical-key deduplication never merges their edges. -/
theorem claim_C3_counterexample :
    ((finDefault.generateFins (some quadMeshNonIndexed)).2).length = 6 ∧
    ¬ ((finDefault.generateFins (some quadMeshNonIndexed)).2).length = 5 := by
  have hlen : ((finDefault.generateFins (some quadMeshNonIndexed)).2).length = 6 := by
    rw [generateFins_length]
    decide
  exact ⟨hlen, by rw [hlen]; decide⟩

/-- C3 (amended): edge extraction enumerates 3 edges per triangle and
deduplicates by the canonical min-index-first key, so that the
deduplicated list has pairwise-distinct keys and covers every input
edge's key; an edge shared through common *source vertex indices*
collapses, which merges the diagonal of an indexed quad (5 unique fins),
while a non-indexed quad gives every triangle fresh indices and keeps
all 6. -/
theorem claim_C3_amended :
    (∀ (edges : List Edge),
      (dedupEdges edges []).Pairwise (fun a b => edgeKey a ≠ edgeKey b)) ∧
    (∀ (edges : List Edge) (e : Edge), e ∈ edges →
      ∃ u ∈ dedupEdges edges [], edgeKey u = edgeKey e) ∧
    (∀ (edges : List Edge), List.Sublist (dedupEdges edges []) edges) ∧
    (rawEdges quadMeshIndexed).length = 6 ∧
    (rawEdges quadMeshNonIndexed).length = 6 ∧
    (finDefault.extractEdges quadMeshIndexed).length = 5 ∧
    (finDefault.extractEdges quadMeshNonIndexed).length = 6 := by
  refine ⟨fun edges => (dedupEdges_keys edges []).2, ?_, fun edges => dedupEdges_sublist edges [],
    by decide, by decide, by decide, by decide⟩
  intro edges e he
  rcases dedupEdges_covers edges [] e he with hks | h
  · exact absurd hks (List.not_mem_nil _)
  · exact h

/-- Witness for C3 (amended): the duplicated edge `(1,0)` of the list
`[(0,1), (1,0)]` is represented by the kept edge `(0,1)`. -/
theorem claim_C3_witness :
    ∃ u ∈ dedupEdges [⟨0, 1⟩, ⟨1, 0⟩] [], edgeKey u = edgeKey ⟨1, 0⟩ :=
  claim_C3_amended.2.1 [⟨0, 1⟩, ⟨1, 0⟩] ⟨1, 0⟩ (by decide)

/-- Length of a `flatMap` over `range n` whose pieces all have length
`c`. -/
theorem length_flatMap_const {β : Type} (n c : ℕ) (f : ℕ → List β)
    (h : ∀ k, (f k).length = c) : ((List.range n).flatMap f).length = n * c := by
  induction n with
  | zero => simp
  | succ m ih =>
    rw [List.range_succ, List.flatMap_append, List.length_append, ih,
      List.flatMap_cons, List.flatMap_nil, List.append_nil, h m, Nat.succ_mul]

/-- The triangle-soup copy of a 3-component attribute has 9 floats per
face. -/
theorem soup3_length (idx : List ℕ) (arr : List ℝ) :
    (soup3 idx arr).length = idx.length / 3 * 9 := by
  unfold soup3
  refine length_flatMap_const _ 9 _ fun k => ?_
  exact length_flatMap_const 3 3 _ fun v => rfl

/-- Model of `addRandomizedNormals` only adds the `randomizedNormal` attribute:
positions, normals and index are untouched. -/
theorem addRandomizedNormals_fields (g : BufferGeometry) (i n : ℕ)
    (posArr norArr : List ℝ) (hp : g.positions = some posArr)
    (hn : g.normals = some norArr) :
    (addRandomizedNormals g i n).positions = g.positions ∧
    (addRandomizedNormals g i n).normals = g.normals ∧
    (addRandomizedNormals g i n).index = g.index := by
  unfold addRandomizedNormals
  simp [hp, hn]

/-- A prefix of the right length glued to the rest of the original list
preserves the total length. -/
theorem append_drop_length {β : Type} (pre post : List β) (m : ℕ)
    (hpre : pre.length = m) (hm : m ≤ post.length) :
    (pre ++ post.drop m).length = post.length := by
  rw [List.length_append, List.length_drop, hpre]
  omega

/-- Vertex processing rewrites only the position array, keeping its
length, and leaves normals and index untouched. -/
theorem processVertices_fields (st : ShellGeometry) (g : BufferGeometry) (off : ℝ)
    (i n : ℕ) (posArr norArr : List ℝ) (hp : g.positions = some posArr)
    (hn : g.normals = some norArr) :
    (processVerticesWithGeometricIsolation st g off i n).normals = g.normals ∧
    (processVerticesWithGeometricIsolation st g off i n).index = g.index ∧
    ∃ ps, (processVerticesWithGeometricIsolation st g off i n).positions = some ps ∧
      ps.length = posArr.length := by
  unfold processVerticesWithGeometricIsolation
  simp only [hp, hn]
  refine ⟨trivial, trivial, _, rfl, append_drop_length _ _ _ ?_ ?_⟩
  · exact length_flatMap_const _ 9 _ (fun k => rfl)
  · omega

/-- Model of `createIndependentGeometry` of an indexed geometry: the triangle
soup copying each attribute through the index, with no index of its
own. -/
theorem createIndependentGeometry_indexed (base : BufferGeometry) (idx : List ℕ)
    (posArr norArr : List ℝ) (hidx : base.index = some idx)
    (hp : base.positions = some posArr) (hn : base.normals = some norArr) :
    createIndependentGeometry base = some
      { uuid := 0, positions := some (soup3 idx posArr),
        normals := some (soup3 idx norArr), uvs := base.uvs.map (soup2 idx),
        index := none, randomizedNormal := none, shellData := none,
        finData := none } := by
  unfold createIndependentGeometry
  simp only [hp, hn, hidx]

/-- Model of `createShellLayer` on an indexed base geometry: a non-indexed layer
whose normals are the triangle-soup copy of the source normals and
whose position array has 9 floats per source face. -/
theorem createShellLayer_spec (st : ShellGeometry) (i n : ℕ) (base : BufferGeometry)
    (idx : List ℕ) (posArr norArr : List ℝ)
    (hb : st.baseGeometry = some base) (hidx : base.index = some idx)
    (hp : base.positions = some posArr) (hn : base.normals = some norArr) :
    ∃ g, st.createShellLayer i n = some g ∧ g.index = none ∧
      g.normals = some (soup3 idx norArr) ∧
      ∃ ps, g.positions = some ps ∧ ps.length = idx.length / 3 * 9 := by
  unfold ShellGeometry.createShellLayer
  simp only [hb, createIndependentGeometry_indexed base idx posArr norArr hidx hp hn]
  obtain ⟨hapos, hanor, haidx⟩ := addRandomizedNormals_fields
    { uuid := 0, positions := some (soup3 idx posArr),
      normals := some (soup3 idx norArr), uvs := base.uvs.map (soup2 idx),
      index := none, randomizedNormal := none, shellData := none, finData := none }
    i n (soup3 idx posArr) (soup3 idx norArr) rfl rfl
  obtain ⟨hvnor, hvidx, ps, hvpos, hvlen⟩ := processVertices_fields st _
    (shellOffsetDistance i n st.maxShellDistance) i n (soup3 idx posArr)
    (soup3 idx norArr) (by rw [hapos]) (by rw [hanor])
  refine ⟨_, rfl, ?_, ?_, ps, ?_, ?_⟩
  · show (processVerticesWithGeometricIsolation st _ _ i n).index = none
    rw [hvidx, haidx]
  · show (processVerticesWithGeometricIsolation st _ _ i n).normals =
      some (soup3 idx norArr)
    rw [hvnor, hanor]
  · exact hvpos
  · rw [hvlen, soup3_length]

/-- Model of `filterMap` over a list where the function always succeeds keeps
every element. -/
theorem filterMap_length_of_isSome {α β : Type} (f : α → Option β) :
    ∀ (l : List α), (∀ a ∈ l, (f a).isSome) → (l.filterMap f).length = l.length := by
  intro l
  induction l with
  | nil => intro _; rfl
  | cons a rest ih =>
    intro h
    obtain ⟨b, hb⟩ := Option.isSome_iff_exists.mp (h a (List.mem_cons_self _ _))
    rw [List.filterMap_cons, hb, List.length_cons,
      ih (fun x hx => h x (List.mem_cons_of_mem _ hx)), List.length_cons]

/-- C9: on a pool miss, shell generation for an indexed source mesh
returns exactly `shellCount` layers; each layer is a non-indexed
triangle soup whose normals are the per-face copy of the referenced
source vertex normals and whose position array holds `3 * F` fresh
vertices (9 floats per source face `F = idx.length / 3`). -/
theorem claim_C9 (st : ShellGeometry) (mesh : BufferGeometry) (idx : List ℕ)
    (posArr norArr : List ℝ)
    (hidx : mesh.index = some idx) (hp : mesh.positions = some posArr)
    (hn : mesh.normals = some norArr)
    (hmiss : poolLookup st.geometryPool
      (ShellGeometry.generatePoolKey st mesh st.shellCount) = none) :
    ((st.generateShells (some mesh)).2).length = st.shellCount ∧
    ∀ g ∈ (st.generateShells (some mesh)).2,
      g.index = none ∧ g.normals = some (soup3 idx norArr) ∧
      ∃ ps, g.positions = some ps ∧ ps.length = idx.length / 3 * 9 := by
  unfold ShellGeometry.generateShells ShellGeometry.clearShells
  have hmiss2 : poolLookup st.geometryPool
      (ShellGeometry.generatePoolKey
        { st with shellGeometries := [], baseGeometry := some mesh } mesh
        st.shellCount) = none := hmiss
  simp only [hmiss2]
  have hspec := fun k => createShellLayer_spec
    { st with shellGeometries := [], baseGeometry := some mesh } (k + 1)
    st.shellCount mesh idx posArr norArr rfl hidx hp hn
  constructor
  · rw [filterMap_length_of_isSome _ _ ?_, List.length_range]
    intro k _
    obtain ⟨g, hg, _⟩ := hspec k
    rw [hg]
    rfl
  · intro g hg
    obtain ⟨k, hk, hfk⟩ := List.mem_filterMap.mp hg
    obtain ⟨g2, hg2, hi, hnor2, ps, hps, hlen⟩ := hspec k
    rw [hg2] at hfk
    obtain rfl := Option.some_injective _ hfk
    exact ⟨hi, hnor2, ps, hps, hlen⟩

/-- Witness for C9: the 12-face indexed cube with `shellCount = 8`
yields exactly 8 layers, each non-indexed with `12·3 = 36` vertices
(108 position floats). -/
theorem claim_C9_witness :
    cubeShellState.shellCount = 8 ∧ cubeIndex.length = 36 ∧
    ((cubeShellState.generateShells (some cubeMesh)).2).length = 8 ∧
    ∀ g ∈ (cubeShellState.generateShells (some cubeMesh)).2,
      g.index = none ∧ g.normals = some (soup3 cubeIndex cubeNormals) ∧
      ∃ ps, g.positions = some ps ∧ ps.length = 108 := by
  have h := claim_C9 cubeShellState cubeMesh cubeIndex cubePositions cubeNormals
    rfl rfl rfl rfl
  refine ⟨rfl, rfl, h.1, fun g hg => ?_⟩
  obtain ⟨h1, h2, ps, h3, h4⟩ := h.2 g hg
  refine ⟨h1, h2, ps, h3, ?_⟩
  rw [h4]
  rfl

end Fur
